import Mathlib

/-!
Shallow embedding of the Vboarder-Agno HTTP services and their helpers,
together with theorems settling the specification claims.

Sources embedded:
* `app/main.py` — health cache, startup DB retry loop, `verify_api_key`,
  `/health`, `/ready`, `/ask` handlers.
* `app/app_optimized.py` and `app_optimized.py` — API-key middleware,
  `/chat` and `/agents/{agent_id}/chat` handlers.
* `agentos.py` — `CustomOllamaModel.invoke`.
* `agents/runner.py` — `normalize_ollama_url`.

Conventions: machine booleans returned by dependency probes are modelled as
`Bool` parameters; wall-clock instants as rationals (seconds); Python
exceptions escaping a region as `Except` values; an HTTP response either
raised as an exception (`Except.error (code, detail)`) or returned
(`Except.ok body`).
-/

/-- Python exceptions that the handlers distinguish: `asyncio.TimeoutError`,
FastAPI/Starlette `HTTPException` (status code and detail), and any other
exception carrying its class name and message. -/
inductive PyExc where
  | timeoutError : PyExc
  | httpException : Nat → String → PyExc
  | otherExc : String → String → PyExc
deriving DecidableEq, Repr

/-- `type(e).__name__` for the modelled exceptions. -/
def PyExc.typeName : PyExc → String
  | .timeoutError => "TimeoutError"
  | .httpException _ _ => "HTTPException"
  | .otherExc ty _ => ty

/-- `str(e)` for the modelled exceptions: Starlette renders an
`HTTPException` as `"{status_code}: {detail}"`, a bare `asyncio.TimeoutError`
renders as the empty string, and a generic exception renders its message. -/
def PyExc.str : PyExc → String
  | .timeoutError => ""
  | .httpException c d => toString c ++ ": " ++ d
  | .otherExc _ m => m

/-- The ASCII apostrophe character, used inside Python string literals. -/
def apostrophe : Char := Char.ofNat 39

/-- The detail string of the 400 raised by `app/app_optimized.py` when the
chat body lacks a message: `Missing` followed by `message` in apostrophes. -/
def missingMessageDetail : String :=
  "Missing " ++ String.mk [apostrophe] ++ "message" ++ String.mk [apostrophe]

/-- Python truthiness of an optional string: `None` and the empty string
are falsy, every other string is truthy. -/
def truthy : Option String → Bool
  | none => false
  | some s => !(s = "")

/-- Python `s.startswith(p)`, by code points. -/
def strStartsWith (s p : String) : Bool :=
  p.data.isPrefixOf s.data

/-- Python `s[n:]`, by code points. -/
def strDrop (s : String) (n : Nat) : String :=
  String.mk (s.data.drop n)

/-- Python `s.strip()`: remove leading and trailing whitespace. -/
def pyStrip (s : String) : String :=
  String.mk
    (((s.data.dropWhile Char.isWhitespace).reverse.dropWhile
        Char.isWhitespace).reverse)

/-! ## HealthCache (`app/main.py`, lines 48–81) -/

/-- The health-check cache: a TTL plus, for each of the two dependencies,
an optional cached boolean and the instant it was stored. -/
structure HealthCache where
  ttl : ℚ
  db_result : Option Bool
  db_timestamp : Option ℚ
  ollama_result : Option Bool
  ollama_timestamp : Option ℚ
deriving DecidableEq, Repr

/-- `HealthCache.__init__`: both slots start empty. -/
def HealthCache.init (ttl : ℚ) : HealthCache :=
  ⟨ttl, none, none, none, none⟩

/-- `HealthCache.get_db` at wall-clock instant `now`: returns
`(cached_result, is_valid)`. -/
def HealthCache.get_db (c : HealthCache) (now : ℚ) : Option Bool × Bool :=
  match c.db_result, c.db_timestamp with
  | some r, some ts => if now - ts < c.ttl then (some r, true) else (none, false)
  | _, _ => (none, false)

/-- `HealthCache.set_db` at wall-clock instant `now`. -/
def HealthCache.set_db (c : HealthCache) (result : Bool) (now : ℚ) : HealthCache :=
  ⟨c.ttl, some result, some now, c.ollama_result, c.ollama_timestamp⟩

/-- `HealthCache.get_ollama` at wall-clock instant `now`. -/
def HealthCache.get_ollama (c : HealthCache) (now : ℚ) : Option Bool × Bool :=
  match c.ollama_result, c.ollama_timestamp with
  | some r, some ts => if now - ts < c.ttl then (some r, true) else (none, false)
  | _, _ => (none, false)

/-- `HealthCache.set_ollama` at wall-clock instant `now`. -/
def HealthCache.set_ollama (c : HealthCache) (result : Bool) (now : ℚ) : HealthCache :=
  ⟨c.ttl, c.db_result, c.db_timestamp, some result, some now⟩

/-! ## `/health` and `/ready` (`app/main.py`, lines 231–260) -/

/-- The `/health` handler of `app/main.py` as a function of the two check
results: returns `(status_code, body_db_field, body_ollama_field)`.
The Python sets `status_code` to 503 only when both checks are down. -/
def health (db_ok ollama_ok : Bool) : Nat × String × String :=
  ((if !db_ok && !ollama_ok then 503 else 200),
   (if db_ok then "ok" else "fail"),
   (if ollama_ok then "ok" else "fail"))

/-- The `/ready` handler of `app/main.py` as a function of the two check
results: returns `(status_code, ready_flag)`. -/
def ready (db_ok ollama_ok : Bool) : Nat × Bool :=
  if db_ok && ollama_ok then (200, true) else (503, false)

/-! ## Startup database retry loop (`app/main.py` 86–110, `app_optimized.py` 19–33) -/

/-- `max_retries = 10` in `app/main.py` (and the literal `range(1, 11)`
bound in both `app_optimized.py` variants). -/
def max_retries : Nat := 10

/-- `retry_delay = 3` seconds, the fixed sleep between failed attempts. -/
def retry_delay : Nat := 3

/-- The body of `for attempt in range(...)`, starting at attempt number
`attempt` with `remaining` iterations left. `succeeds n` tells whether the
`PostgresDb` construction at attempt `n` succeeds. Returns
`(connected attempt if any, attempts actually made, total seconds slept)`;
the Python sleeps only when `attempt < max_retries`, i.e. when further
iterations remain. -/
def retryFrom (succeeds : Nat → Bool) : Nat → Nat → Option Nat × Nat × Nat
  | _, 0 => (none, 0, 0)
  | attempt, r + 1 =>
    if succeeds attempt then (some attempt, 1, 0)
    else if r = 0 then (none, 1, 0)
    else
      let rest := retryFrom succeeds (attempt + 1) r
      (rest.1, rest.2.1 + 1, retry_delay + rest.2.2)

/-- The whole startup retry loop: attempts numbered `1..max_retries`; when
every attempt fails the handle is `none` (the module keeps `db = None` and
the service continues in degraded mode). -/
def dbRetryLoop (succeeds : Nat → Bool) : Option Nat × Nat × Nat :=
  retryFrom succeeds 1 max_retries

/-! ## API-key verification -/

/-- `verify_api_key` of `app/main.py` (lines 163–170): a FastAPI dependency
taking the configured `API_KEY` and the request's `X-API-Key` header.
Returns the accepted key, or raises 401. -/
def verify_api_key (apiKey xApiKey : Option String) : Except Nat (Option String) :=
  if !truthy apiKey then .ok none
  else if !truthy xApiKey || !(xApiKey = apiKey) then .error 401
  else .ok xApiKey

/-- `PUBLIC_ENDPOINTS` of `app/app_optimized.py` (lines 33–40). -/
def PUBLIC_ENDPOINTS : List String :=
  ["/health", "/", "/connect", "/openapi.json", "/docs", "/redoc"]

/-- The parts of an HTTP request inspected by the middleware: the URL path
and the `Authorization` and `X-API-Key` headers (absent headers read as the
default `""`, matching `request.headers.get(..., "")`). -/
structure Req where
  path : String
  authorization : String
  xApiKey : String
deriving DecidableEq, Repr

/-- The `verify_api_key` HTTP middleware of `app/app_optimized.py`
(lines 91–120): pass the request through (`ok`) or raise 401. -/
def verify_api_key_mw (apiKey : Option String) (r : Req) : Except Nat Unit :=
  if r.path ∈ PUBLIC_ENDPOINTS then .ok ()
  else if !truthy apiKey then .ok ()
  else
    let k := apiKey.getD ""
    if strStartsWith r.authorization "Bearer " ∧ strDrop r.authorization 7 = k then .ok ()
    else if r.xApiKey = k then .ok ()
    else .error 401

/-! ## `/ask` (`app/main.py`, lines 266–327) -/

/-- The possible returned responses of the `/ask` handler, one constructor
per literal `JSONResponse`/dict in the source. -/
inductive AskResult where
  | serviceUnavailable : AskResult
  | answer : String → AskResult
  | gatewayTimeout : Nat → AskResult
  | internalError : String → AskResult
deriving DecidableEq, Repr

/-- The HTTP status code attached to each `/ask` response in the source:
503 for the not-initialized body, 200 for an answer, 504 for the timeout
body, 500 for the generic failure body. -/
def AskResult.statusCode : AskResult → Nat
  | .serviceUnavailable => 503
  | .answer _ => 200
  | .gatewayTimeout _ => 504
  | .internalError _ => 500

/-- The `/ask` handler. `dbSome`/`agentSome` model whether the module-level
`db` and `agent` objects are non-`None`; `timeoutVal` is `AGENT_TIMEOUT`;
`phase1` is the outcome of the agent method call (`agent.chat/run/ask`),
and `phase2 resp` the outcome of the `asyncio.wait_for` region on its
result. The inner `try` catches only `asyncio.TimeoutError` (504); the
outer `try` re-raises `HTTPException` and turns any other exception into
the 500 body carrying `type(e).__name__`. -/
def ask_handler (dbSome agentSome : Bool) (timeoutVal : Nat)
    (phase1 : Except PyExc String) (phase2 : String → Except PyExc String) :
    Except (Nat × String) AskResult :=
  if !dbSome || !agentSome then .ok .serviceUnavailable
  else
    let tryRes : Except PyExc AskResult :=
      match phase1 with
      | .error e => .error e
      | .ok resp =>
        match phase2 resp with
        | .error .timeoutError => .ok (.gatewayTimeout timeoutVal)
        | .error e => .error e
        | .ok final => .ok (.answer final)
    match tryRes with
    | .ok res => .ok res
    | .error (.httpException c d) => .error (c, d)
    | .error e => .ok (.internalError e.typeName)

/-! ## `CustomOllamaModel` (`agentos.py`, lines 64–96) -/

/-- The fields of `CustomOllamaModel` used by `invoke`. -/
structure CustomOllamaModel where
  id : String
  host : String
  timeout : Nat
deriving DecidableEq, Repr

/-- Outcome of the `requests.post` call to `/api/generate` inside
`invoke`: a 2xx response whose JSON `response` field reads as the given
string (`""` when absent), a `requests.exceptions.Timeout`, a
`requests.exceptions.ConnectionError`, or any other exception (including
the `HTTPError` from `raise_for_status` and JSON decoding errors),
carrying `str(e)`. -/
inductive GenOutcome where
  | ok : String → GenOutcome
  | timeout : GenOutcome
  | connectionError : GenOutcome
  | otherExc : String → GenOutcome
deriving DecidableEq, Repr

/-- The placeholder returned for an empty or whitespace-only model
response. -/
def emptyResponsePlaceholder : String := "[⚠️ Empty model response]"

/-- `CustomOllamaModel.invoke`: total on every outcome, returning the
stripped output or a bracketed message. -/
def CustomOllamaModel.invoke (m : CustomOllamaModel) (o : GenOutcome) : String :=
  match o with
  | .ok resp =>
    let output := pyStrip resp
    if output = "" then emptyResponsePlaceholder else output
  | .timeout => "[❌ Timeout after " ++ toString m.timeout ++ "s]"
  | .connectionError => "[❌ Cannot reach Ollama at " ++ m.host ++ "]"
  | .otherExc msg => "[💥 Unexpected error: " ++ msg ++ "]"

/-! ## Chat endpoints of the optimized apps -/

/-- Outcome of `await request.json()` plus the `message` lookup: either the
body parsed and `data.get("message", "")` read as the given optional string
(`none` when the key is absent), or parsing raised an exception with class
name and message. -/
inductive BodyOutcome where
  | jsonOk : Option String → BodyOutcome
  | jsonError : String → String → BodyOutcome
deriving DecidableEq, Repr

/-- `POST /chat` of `app/app_optimized.py` (lines 191–216): guard on the
agent, then a `try` whose `except Exception` re-raises everything —
including the 400 `HTTPException` for a missing message — as
`HTTPException(500, str(e))`. Returns the `(response, status, agent)`
body on success. -/
def chat_handler (agentSome : Bool) (body : BodyOutcome)
    (run : String → Except PyExc String) :
    Except (Nat × String) (String × String × String) :=
  if !agentSome then .error (503, "Agent not ready")
  else
    let tryRes : Except PyExc (String × String × String) :=
      match body with
      | .jsonError ty m => .error (.otherExc ty m)
      | .jsonOk msgOpt =>
        let msg := pyStrip (msgOpt.getD "")
        if msg = "" then .error (.httpException 400 missingMessageDetail)
        else
          match run msg with
          | .error e => .error e
          | .ok resp => .ok (resp, "success", "VBoarder")
    match tryRes with
    | .ok v => .ok v
    | .error e => .error (500, e.str)

/-- `POST /agents/{agent_id}/chat` of `app/app_optimized.py`
(lines 219–246): a 404 guard on the agent id, then the same shape as
`/chat` with the agent id echoed in the body. -/
def agent_chat_handler (agentId : String) (agentSome : Bool)
    (body : BodyOutcome) (run : String → Except PyExc String) :
    Except (Nat × String) (String × String × String) :=
  if !(agentId = "default") then .error (404, "Agent not found")
  else if !agentSome then .error (503, "Agent not ready")
  else
    let tryRes : Except PyExc (String × String × String) :=
      match body with
      | .jsonError ty m => .error (.otherExc ty m)
      | .jsonOk msgOpt =>
        let msg := pyStrip (msgOpt.getD "")
        if msg = "" then .error (.httpException 400 missingMessageDetail)
        else
          match run msg with
          | .error e => .error e
          | .ok resp => .ok (resp, "success", agentId)
    match tryRes with
    | .ok v => .ok v
    | .error e => .error (500, e.str)

/-- `POST /chat` of the root `app_optimized.py` (lines 66–78): no `strip`,
`HTTPException(status_code=400)` with no detail (Starlette fills in the
phrase `Bad Request`), body `(response, status)`. -/
def chat_handler_root (agentSome : Bool) (body : BodyOutcome)
    (run : String → Except PyExc String) :
    Except (Nat × String) (String × String) :=
  if !agentSome then .error (503, "Agent not ready")
  else
    let tryRes : Except PyExc (String × String) :=
      match body with
      | .jsonError ty m => .error (.otherExc ty m)
      | .jsonOk msgOpt =>
        let msg := msgOpt.getD ""
        if msg = "" then .error (.httpException 400 "Bad Request")
        else
          match run msg with
          | .error e => .error e
          | .ok resp => .ok (resp, "success")
    match tryRes with
    | .ok v => .ok v
    | .error e => .error (500, e.str)

/-- `POST /agents/{agent_id}/chat` of the root `app_optimized.py`
(lines 80–94): detail-less 404/503/400 (Starlette default phrases). -/
def agent_chat_handler_root (agentId : String) (agentSome : Bool)
    (body : BodyOutcome) (run : String → Except PyExc String) :
    Except (Nat × String) (String × String) :=
  if !(agentId = "default") then .error (404, "Not Found")
  else if !agentSome then .error (503, "Service Unavailable")
  else
    let tryRes : Except PyExc (String × String) :=
      match body with
      | .jsonError ty m => .error (.otherExc ty m)
      | .jsonOk msgOpt =>
        let msg := msgOpt.getD ""
        if msg = "" then .error (.httpException 400 "Bad Request")
        else
          match run msg with
          | .error e => .error e
          | .ok resp => .ok (resp, "success")
    match tryRes with
    | .ok v => .ok v
    | .error e => .error (500, e.str)

/-! ## `normalize_ollama_url` (`agents/runner.py`, lines 42–45) -/

/-- `re.match(r"...", url)` for the anchored scheme pattern: the string
begins with `http://` or with `https://`. -/
def matchesHttpScheme (s : String) : Bool :=
  strStartsWith s "http://" || strStartsWith s "https://"

/-- Python `url.rstrip("/")`: remove every trailing `/`. -/
def rstripSlashes (s : String) : String :=
  String.mk ((s.data.reverse.dropWhile (fun c => c = '/')).reverse)

/-- Whether a string ends with `/`. -/
def endsWithSlash (s : String) : Bool :=
  decide (s.data.getLast? = some '/')

/-- `normalize_ollama_url`: prepend `http://` when no scheme matches, then
strip trailing slashes. -/
def normalize_ollama_url (url : String) : String :=
  if matchesHttpScheme url then rstripSlashes url
  else rstripSlashes ("http://" ++ url)

/-! ## Theorems -/

theorem retryFrom_attempts_le (succeeds : Nat → Bool) :
    ∀ r attempt, (retryFrom succeeds attempt r).2.1 ≤ r := by
  intro r
  induction r with
  | zero => intro attempt; simp [retryFrom]
  | succ n ih =>
    intro attempt
    by_cases hs : succeeds attempt
    · simp [retryFrom, hs]
    · by_cases hn : n = 0
      · simp [retryFrom, hs, hn]
      · have := ih (attempt + 1)
        simp only [retryFrom, hs, hn, if_false, Bool.false_eq_true]
        simpa using Nat.succ_le_succ this

theorem retryFrom_all_fail (succeeds : Nat → Bool) :
    ∀ r attempt, 1 ≤ r →
      (∀ j, attempt ≤ j → j < attempt + r → succeeds j = false) →
      retryFrom succeeds attempt r = (none, r, retry_delay * (r - 1)) := by
  intro r
  induction r with
  | zero => omega
  | succ n ih =>
    intro attempt _ hfail
    have h0 : succeeds attempt = false := hfail attempt le_rfl (by omega)
    by_cases hn : n = 0
    · subst hn
      simp [retryFrom, h0]
    · have hrec := ih (attempt + 1) (by omega)
        (fun j hj1 hj2 => hfail j (by omega) (by omega))
      simp only [retryFrom, h0, hn, if_false, Bool.false_eq_true, hrec,
        Prod.mk.injEq, true_and, and_true, retry_delay]
      omega

theorem retryFrom_first_success (succeeds : Nat → Bool) :
    ∀ i attempt r, i < r →
      (∀ j, j < i → succeeds (attempt + j) = false) →
      succeeds (attempt + i) = true →
      retryFrom succeeds attempt r = (some (attempt + i), i + 1, retry_delay * i) := by
  intro i
  induction i with
  | zero =>
    intro attempt r hr _ hs
    match r, hr with
    | rr + 1, _ =>
      rw [Nat.add_zero] at hs
      simp [retryFrom, hs]
  | succ n ih =>
    intro attempt r hr hfail hs
    have h0 : succeeds attempt = false := by simpa using hfail 0 (by omega)
    match r, hr with
    | rr + 1, hr =>
      have hrr0 : ¬ rr = 0 := by omega
      have hshift : attempt + 1 + n = attempt + (n + 1) := by omega
      have hrec := ih (attempt + 1) rr (by omega)
        (fun j hj => by
          have := hfail (j + 1) (by omega)
          have hj2 : attempt + 1 + j = attempt + (j + 1) := by omega
          rw [hj2]
          exact this)
        (by rw [hshift]; exact hs)
      simp only [retryFrom, h0, hrr0, if_false, Bool.false_eq_true, hrec,
        Prod.mk.injEq, Option.some.injEq, true_and, and_true, retry_delay]
      omega

/-- C5: the startup database connection is a fixed linear retry loop: never
more than `max_retries = 10` attempts; when every attempt fails the handle
stays `none` (degraded mode) after 10 attempts and 9 sleeps of
`retry_delay = 3` seconds; when attempt `k` is the first to succeed the
loop stops there after `k` attempts and `k - 1` sleeps, with no sleep
after the final attempt. -/
theorem db_retry_loop_spec (succeeds : Nat → Bool) :
    ((dbRetryLoop succeeds).2.1 ≤ max_retries) ∧
    ((∀ j, 1 ≤ j → j ≤ max_retries → succeeds j = false) →
      dbRetryLoop succeeds = (none, max_retries, retry_delay * (max_retries - 1))) ∧
    (∀ k, 1 ≤ k → k ≤ max_retries → succeeds k = true →
      (∀ j, 1 ≤ j → j < k → succeeds j = false) →
      dbRetryLoop succeeds = (some k, k, retry_delay * (k - 1))) := by
  refine ⟨retryFrom_attempts_le succeeds max_retries 1, ?_, ?_⟩
  · intro hfail
    exact retryFrom_all_fail succeeds max_retries 1 (by simp [max_retries])
      (fun j hj1 hj2 => hfail j hj1 (by omega))
  · intro k hk1 hk2 hk hmin
    have h1 : 1 + (k - 1) = k := by omega
    have := retryFrom_first_success succeeds (k - 1) 1 max_retries (by omega)
      (fun j hj => hmin (1 + j) (by omega) (by omega))
      (by rw [h1]; exact hk)
    rw [h1] at this
    rw [dbRetryLoop, this]
    simp only [Prod.mk.injEq, Option.some.injEq, true_and, and_true]
    omega

/-- C5 witness: with a probe that succeeds only at attempt 3 the loop stops
after 3 attempts and 2 sleeps; with a probe that always fails it gives up
after 10 attempts and 9 sleeps with the handle `none`. -/
theorem db_retry_loop_spec_witness :
    dbRetryLoop (fun n => decide (n = 3)) = (some 3, 3, retry_delay * 2) ∧
    dbRetryLoop (fun _ => false) =
      (none, max_retries, retry_delay * (max_retries - 1)) :=
  ⟨(db_retry_loop_spec (fun n => decide (n = 3))).2.2 3 (by decide) (by decide)
      (by decide)
      (fun j h1 h2 => by
        simp only [decide_eq_false_iff_not]
        omega),
   (db_retry_loop_spec (fun _ => false)).2.1 (fun j _ _ => rfl)⟩

/-- C6: the health cache is a time-boxed store of two booleans: after a
`set` at instant `t`, a `get` at instant `t2` serves the stored boolean
(whether `true` or `false`) as valid exactly when `t2 - t` is strictly
below the TTL and `(none, invalid)` otherwise; a never-written slot reads
`(none, invalid)`; each `set` overwrites both the stored value and the
timestamp of its slot. -/
theorem health_cache_ttl (c : HealthCache) (r : Bool) (t t2 ttl0 : ℚ) :
    ((c.set_db r t).get_db t2 =
      if t2 - t < c.ttl then (some r, true) else (none, false)) ∧
    ((c.set_ollama r t).get_ollama t2 =
      if t2 - t < c.ttl then (some r, true) else (none, false)) ∧
    ((HealthCache.init ttl0).get_db t2 = (none, false)) ∧
    ((HealthCache.init ttl0).get_ollama t2 = (none, false)) ∧
    ((c.set_db r t).db_result = some r ∧ (c.set_db r t).db_timestamp = some t) ∧
    ((c.set_ollama r t).ollama_result = some r ∧
      (c.set_ollama r t).ollama_timestamp = some t) :=
  ⟨rfl, rfl, rfl, rfl, ⟨rfl, rfl⟩, ⟨rfl, rfl⟩⟩

/-- C7: in `/ask` (with `db` and `agent` initialized), any exception other
than `HTTPException` escaping the agent invocation or the wait is turned
into the 500 body carrying the exception class name; an
`asyncio.TimeoutError` raised by the `AGENT_TIMEOUT`-bounded wait is
turned into the 504 body carrying the timeout value; an `HTTPException`
is re-raised unchanged from either phase. -/
theorem ask_error_conversion :
    ∀ (timeoutVal : Nat) (p2 : String → Except PyExc String)
      (ty m d resp : String) (c : Nat),
      (ask_handler true true timeoutVal (.error (.otherExc ty m)) p2 =
        .ok (.internalError ty)) ∧
      (ask_handler true true timeoutVal (.error .timeoutError) p2 =
        .ok (.internalError "TimeoutError")) ∧
      (ask_handler true true timeoutVal (.error (.httpException c d)) p2 =
        .error (c, d)) ∧
      (ask_handler true true timeoutVal (.ok resp)
        (fun _ => .error .timeoutError) = .ok (.gatewayTimeout timeoutVal)) ∧
      (AskResult.statusCode (.gatewayTimeout timeoutVal) = 504) ∧
      (ask_handler true true timeoutVal (.ok resp)
        (fun _ => .error (.httpException c d)) = .error (c, d)) ∧
      (ask_handler true true timeoutVal (.ok resp)
        (fun _ => .error (.otherExc ty m)) = .ok (.internalError ty)) ∧
      (AskResult.statusCode (.internalError ty) = 500) :=
  fun _ _ _ _ _ _ _ => ⟨rfl, rfl, rfl, rfl, rfl, rfl, rfl, rfl⟩

theorem string_append_ne_empty (a b : String) (ha : ¬ a = "") :
    ¬ (a ++ b) = "" := by
  intro h
  apply ha
  have hlen := congrArg String.length h
  rw [String.length_append] at hlen
  have h0 : ("" : String).length = 0 := rfl
  rw [h0] at hlen
  have ha0 : a.length = 0 := by omega
  cases a with
  | mk d =>
    have : d.length = 0 := ha0
    have hd : d = [] := List.length_eq_zero.mp this
    rw [hd]

/-- C8: `CustomOllamaModel.invoke` is total — it returns a non-empty
string on every outcome of the inference call: an empty or
whitespace-only model response maps to the placeholder, and the timeout,
connection-failure and generic-exception outcomes map to their bracketed
messages. -/
theorem invoke_total_nonempty (m : CustomOllamaModel) (o : GenOutcome)
    (resp msg : String) :
    (¬ m.invoke o = "") ∧
    (m.invoke (.ok resp) =
      if pyStrip resp = "" then emptyResponsePlaceholder else pyStrip resp) ∧
    (m.invoke .timeout = "[❌ Timeout after " ++ toString m.timeout ++ "s]") ∧
    (m.invoke .connectionError =
      "[❌ Cannot reach Ollama at " ++ m.host ++ "]") ∧
    (m.invoke (.otherExc msg) = "[💥 Unexpected error: " ++ msg ++ "]") := by
  refine ⟨?_, rfl, rfl, rfl, rfl⟩
  cases o with
  | ok r =>
    show ¬ (if pyStrip r = "" then emptyResponsePlaceholder else pyStrip r) = ""
    by_cases hr : pyStrip r = ""
    · simp only [hr, if_true]
      decide
    · rw [if_neg hr]
      exact hr
  | timeout =>
    exact string_append_ne_empty _ _ (string_append_ne_empty _ _ (by decide))
  | connectionError =>
    exact string_append_ne_empty _ _ (string_append_ne_empty _ _ (by decide))
  | otherExc e =>
    exact string_append_ne_empty _ _ (string_append_ne_empty _ _ (by decide))

/-- C9: in the optimized chat endpoints with the agent initialized, a JSON
body whose `message` is absent or empty yields HTTP 500, not 400: the 400
`HTTPException` raised inside the `try` is caught by the broad
`except Exception` and re-raised as a 500 whose detail is the stringified
original exception; in particular no 400 reaches the client. -/
theorem chat_missing_message_500 :
    ∀ (run : String → Except PyExc String) (msgOpt : Option String),
      msgOpt.getD "" = "" →
      (chat_handler true (.jsonOk msgOpt) run =
        .error (500, PyExc.str (.httpException 400 missingMessageDetail))) ∧
      (agent_chat_handler "default" true (.jsonOk msgOpt) run =
        .error (500, PyExc.str (.httpException 400 missingMessageDetail))) ∧
      (chat_handler_root true (.jsonOk msgOpt) run =
        .error (500, PyExc.str (.httpException 400 "Bad Request"))) ∧
      (agent_chat_handler_root "default" true (.jsonOk msgOpt) run =
        .error (500, PyExc.str (.httpException 400 "Bad Request"))) ∧
      (∀ d, ¬ chat_handler true (.jsonOk msgOpt) run = .error (400, d)) := by
  intro run msgOpt h
  have hstrip : pyStrip (msgOpt.getD "") = "" := by
    rw [h]
    rfl
  refine ⟨?_, ?_, ?_, ?_, ?_⟩
  · simp [chat_handler, hstrip]
  · simp [agent_chat_handler, hstrip]
  · simp [chat_handler_root, h]
  · simp [agent_chat_handler_root, h]
  · intro d hcontra
    rw [show chat_handler true (.jsonOk msgOpt) run =
        .error (500, PyExc.str (.httpException 400 missingMessageDetail)) from
        by simp [chat_handler, hstrip]] at hcontra
    simp at hcontra

/-- C9 witness: a body parsing to an empty `message` makes the optimized
`/chat` answer 500 with the stringified 400 as detail. -/
theorem chat_missing_message_500_witness :
    (some "").getD "" = "" ∧
    chat_handler true (.jsonOk (some "")) (fun _ => .ok "reply") =
      .error (500, PyExc.str (.httpException 400 missingMessageDetail)) :=
  ⟨rfl,
   (chat_missing_message_500 (fun _ => .ok "reply") (some "") rfl).1⟩

theorem rstripSlashes_of_no_trailing_slash (s : String)
    (h : endsWithSlash s = false) : rstripSlashes s = s := by
  have hlast : ¬ s.data.getLast? = some '/' := by
    simpa [endsWithSlash] using h
  cases s with
  | mk d =>
    show String.mk ((d.reverse.dropWhile (fun c => c = '/')).reverse) = ⟨d⟩
    cases hrev : d.reverse with
    | nil =>
      have hd : d = [] := by simpa using congrArg List.reverse hrev
      rw [hd]
      rfl
    | cons c rest =>
      have hhead : d.getLast? = some c := by
        rw [← List.head?_reverse, hrev]
        rfl
      have hc : ¬ c = '/' := by
        intro hc
        exact hlast (by rw [hhead, hc])
      have hdw : List.dropWhile (fun x => decide (x = '/')) (c :: rest) =
          c :: rest := by
        simp [List.dropWhile_cons, hc]
      have hrd : (c :: rest).reverse = d := by
        have := congrArg List.reverse hrev
        simpa using this.symm
      show String.mk ((List.dropWhile (fun x => decide (x = '/'))
          (c :: rest)).reverse) = ⟨d⟩
      rw [hdw, hrd]

/-- C10: `normalize_ollama_url` is the identity on every string beginning
with `http://` or `https://` and not ending in `/`; consequently, whenever
a first application produces a string of that shape, a second application
leaves it unchanged. -/
theorem normalize_ollama_url_identity (s : String) :
    (matchesHttpScheme s = true → endsWithSlash s = false →
      normalize_ollama_url s = s) ∧
    (matchesHttpScheme (normalize_ollama_url s) = true →
      endsWithSlash (normalize_ollama_url s) = false →
      normalize_ollama_url (normalize_ollama_url s) = normalize_ollama_url s) := by
  constructor
  · intro hm he
    rw [normalize_ollama_url, if_pos hm]
    exact rstripSlashes_of_no_trailing_slash s he
  · intro hm he
    rw [normalize_ollama_url, if_pos hm]
    exact rstripSlashes_of_no_trailing_slash _ he

/-- C10 witness: a clean URL is left unchanged, and for an input whose
first normalization has the clean shape the second application is the
identity on the first result. -/
theorem normalize_ollama_url_identity_witness :
    normalize_ollama_url "http://ollama:11434" = "http://ollama:11434" ∧
    normalize_ollama_url (normalize_ollama_url "http://ollama:11434/") =
      normalize_ollama_url "http://ollama:11434/" :=
  ⟨(normalize_ollama_url_identity "http://ollama:11434").1 (by decide) (by decide),
   (normalize_ollama_url_identity "http://ollama:11434/").2 (by decide) (by decide)⟩

/-- C1 counterexample: with the database check failing and the Ollama check
succeeding, the claim's hypothesis (at least one dependency check fails)
holds, yet `/health` answers 200, not 503. -/
theorem health_one_dep_down_not_503 :
    (false = false ∨ true = false) ∧ (health false true).1 = 200 ∧
      ¬ (health false true).1 = 503 := by
  decide

/-- C1 (amended): `/health` reports each failing dependency as `fail` in
the body, but returns 503 exactly when both checks fail; in every other
case, including exactly one dependency down, it returns 200. -/
theorem health_degraded_status :
    ∀ db_ok ollama_ok : Bool,
      ((health db_ok ollama_ok).2.1 = "fail" ↔ db_ok = false) ∧
      ((health db_ok ollama_ok).2.2 = "fail" ↔ ollama_ok = false) ∧
      ((health db_ok ollama_ok).1 = 503 ↔ (db_ok = false ∧ ollama_ok = false)) ∧
      (¬ (db_ok = false ∧ ollama_ok = false) → (health db_ok ollama_ok).1 = 200) := by
  decide

/-- C2: `/ready` answers 200 with `ready = true` exactly when both the
database check and the Ollama check succeed, and 503 with `ready = false`
in every other case. -/
theorem ready_iff_both_checks :
    ∀ db_ok ollama_ok : Bool,
      (ready db_ok ollama_ok = (200, true) ↔ (db_ok = true ∧ ollama_ok = true)) ∧
      (ready db_ok ollama_ok = (503, false) ↔ ¬ (db_ok = true ∧ ollama_ok = true)) := by
  decide

/-- C3: with the agent object `None`, each chat endpoint answers 503
without invoking the agent: the `/ask` result is the 503 body whatever the
agent-invocation outcomes would be, and the four optimized chat handlers
raise their 503 whatever the request body and the agent run outcome. -/
theorem chat_503_when_agent_none :
    ∀ (dbSome : Bool) (timeoutVal : Nat) (phase1 : Except PyExc String)
      (phase2 : String → Except PyExc String) (body : BodyOutcome)
      (run : String → Except PyExc String),
      (ask_handler dbSome false timeoutVal phase1 phase2 = .ok .serviceUnavailable) ∧
      (AskResult.statusCode .serviceUnavailable = 503) ∧
      (chat_handler false body run = .error (503, "Agent not ready")) ∧
      (agent_chat_handler "default" false body run = .error (503, "Agent not ready")) ∧
      (chat_handler_root false body run = .error (503, "Agent not ready")) ∧
      (agent_chat_handler_root "default" false body run =
        .error (503, "Service Unavailable")) := by
  intro dbSome timeoutVal phase1 phase2 body run
  refine ⟨?_, rfl, rfl, ?_, rfl, ?_⟩
  · cases dbSome <;> rfl
  · simp [agent_chat_handler]
  · simp [agent_chat_handler_root]

/-- C4: with a configured key, `app/main.py` accepts a request exactly when
its `X-API-Key` header equals the key and raises 401 otherwise, and
`app/app_optimized.py` exempts the public endpoints, accepts exactly a
matching Bearer token or `X-API-Key` header and raises 401 otherwise; with
no configured key both accept every request. -/
theorem api_key_enforced :
    ∀ (apiKey xApiKey : Option String) (r : Req),
      (truthy apiKey = false → verify_api_key apiKey xApiKey = .ok none) ∧
      (truthy apiKey = true →
        (xApiKey = apiKey → verify_api_key apiKey xApiKey = .ok xApiKey) ∧
        (¬ xApiKey = apiKey → verify_api_key apiKey xApiKey = .error 401)) ∧
      (r.path ∈ PUBLIC_ENDPOINTS → verify_api_key_mw apiKey r = .ok ()) ∧
      (truthy apiKey = false → verify_api_key_mw apiKey r = .ok ()) ∧
      (truthy apiKey = true → ¬ r.path ∈ PUBLIC_ENDPOINTS →
        (verify_api_key_mw apiKey r = .ok () ↔
          ((strStartsWith r.authorization "Bearer " = true ∧
            strDrop r.authorization 7 = apiKey.getD "") ∨
           r.xApiKey = apiKey.getD "")) ∧
        (¬ ((strStartsWith r.authorization "Bearer " = true ∧
            strDrop r.authorization 7 = apiKey.getD "") ∨
           r.xApiKey = apiKey.getD "") →
          verify_api_key_mw apiKey r = .error 401)) := by
  intro apiKey xApiKey r
  refine ⟨?_, ?_, ?_, ?_, ?_⟩
  · intro h
    simp [verify_api_key, h]
  · intro h
    match apiKey, h with
    | some k, h =>
      have hk : ¬ k = "" := by simpa [truthy] using h
      refine ⟨fun hx => ?_, fun hx => ?_⟩
      · subst hx
        simp [verify_api_key, truthy, hk]
      · match xApiKey with
        | none => simp [verify_api_key, truthy, hk]
        | some x =>
          by_cases hx0 : x = ""
          · simp [verify_api_key, truthy, hk, hx0]
          · have hxk : ¬ x = k := fun hh => hx (by rw [hh])
            simp [verify_api_key, truthy, hk, hx0, hxk]
  · intro h
    simp [verify_api_key_mw, h]
  · intro h
    by_cases hp : r.path ∈ PUBLIC_ENDPOINTS <;>
      simp [verify_api_key_mw, h, hp]
  · intro h hp
    constructor
    · by_cases hb : strStartsWith r.authorization "Bearer " = true ∧
        strDrop r.authorization 7 = apiKey.getD "" <;>
        by_cases hxk : r.xApiKey = apiKey.getD "" <;>
        simp [verify_api_key_mw, h, hp, hb, hxk]
    · intro hno
      push_neg at hno
      obtain ⟨hb, hxk⟩ := hno
      by_cases hb1 : strStartsWith r.authorization "Bearer " = true ∧
        strDrop r.authorization 7 = apiKey.getD ""
      · exact absurd hb1.2 (hb hb1.1)
      · simp [verify_api_key_mw, h, hp, hb1, hxk]

/-- C4 witness: key `secret` configured; non-public path `/chat`; the
matching `X-API-Key` is accepted by `app/main.py` and a wrong one
rejected; a matching Bearer token passes the optimized middleware and a
request with no credentials is rejected with 401. -/
theorem api_key_enforced_witness :
    truthy (some "secret") = true ∧ ¬ "/chat" ∈ PUBLIC_ENDPOINTS ∧
    verify_api_key (some "secret") (some "secret") = .ok (some "secret") ∧
    verify_api_key (some "secret") (some "wrong") = .error 401 ∧
    verify_api_key_mw (some "secret") ⟨"/chat", "Bearer secret", ""⟩ = .ok () ∧
    verify_api_key_mw (some "secret") ⟨"/chat", "", ""⟩ = .error 401 :=
  ⟨by decide, by decide,
   ((api_key_enforced (some "secret") (some "secret")
      ⟨"/chat", "Bearer secret", ""⟩).2.1 (by decide)).1 rfl,
   ((api_key_enforced (some "secret") (some "wrong")
      ⟨"/chat", "Bearer secret", ""⟩).2.1 (by decide)).2 (by decide),
   ((api_key_enforced (some "secret") none
      ⟨"/chat", "Bearer secret", ""⟩).2.2.2.2 (by decide) (by decide)).1.mpr
      (Or.inl ⟨by decide, by decide⟩),
   ((api_key_enforced (some "secret") none
      ⟨"/chat", "", ""⟩).2.2.2.2 (by decide) (by decide)).2 (by decide)⟩
